import Mathlib

/-!
Shallow embedding of `pocket-tagger.py`: a script that authenticates against
the Pocket OAuth flow, fetches unread untagged articles, asks an LLM to
classify each article against a fixed tag vocabulary, and writes the tags
back.  Network and console I/O are modelled by passing the environment's
responses explicitly and recording effects in traces; Python exceptions are
modelled by `PyResult`; JSON values by the inductive `JVal` with Python
truthiness.
-/

namespace PocketTagger

/-- Result of running a piece of Python code: a value, or a raised exception
carrying the exception kind as a string. -/
inductive PyResult (α : Type) where
  | ok (v : α)
  | exn (m : String)
  deriving DecidableEq, Repr

/-- JSON values, as Python's `json` module materialises them: objects keep
insertion order, numbers are modelled as integers (the script only ever
inspects small integer fields). -/
inductive JVal where
  | null
  | bool (b : Bool)
  | num (n : Int)
  | str (s : String)
  | arr (xs : List JVal)
  | obj (kvs : List (String × JVal))

/-- Python truthiness of a JSON value: `None`, `False`, `0`, `""`, `[]`
and `{}` are falsy, everything else truthy. -/
def JVal.truthy : JVal → Bool
  | .null => false
  | .bool b => b
  | .num n => n != 0
  | .str s => s != ""
  | .arr [] => false
  | .arr (_ :: _) => true
  | .obj [] => false
  | .obj (_ :: _) => true

/-- Whether a JSON value is a Python dict. -/
def JVal.isObj : JVal → Bool
  | .obj _ => true
  | _ => false

/-- Python `d.get(k)` with default `None`, on a dict value; on a non-dict
the script never reaches this helper without raising first, so the non-dict
case is irrelevant and returns `null`. -/
def pyGetD (j : JVal) (k : String) : JVal :=
  match j with
  | .obj kvs => (kvs.lookup k).getD .null
  | _ => .null

/-- Python `j[k]` subscription: `KeyError` when the key is missing,
`TypeError` when the value is not a dict. -/
def pySubscript (j : JVal) (k : String) : PyResult JVal :=
  match j with
  | .obj kvs =>
      match kvs.lookup k with
      | some v => .ok v
      | none => .exn "KeyError"
  | _ => .exn "TypeError"

/-- Python `a or b` for JSON values (used in the title/URL fallback chains). -/
def pyOr (a b : JVal) : JVal :=
  if a.truthy then a else b

/-- Python `str.strip()` whitespace: space, tab, newline, carriage return,
vertical tab and form feed. -/
def pyIsSpace (c : Char) : Bool :=
  c == ' ' || c == '\t' || c == '\n' || c == '\r' || c == '\x0b' || c == '\x0c'

/-- Python `s.strip()`: drop leading and trailing whitespace. -/
def pyStrip (s : String) : String :=
  String.mk (((s.data.dropWhile pyIsSpace).reverse.dropWhile pyIsSpace).reverse)

/-- Auxiliary for `pySplitComma`: accumulate the current piece (reversed). -/
def pySplitCommaAux : List Char → List Char → List String
  | [], acc => [String.mk acc.reverse]
  | c :: rest, acc =>
      if c == ',' then String.mk acc.reverse :: pySplitCommaAux rest []
      else pySplitCommaAux rest (c :: acc)

/-- Python `s.split(',')`: split on every comma; `"".split(',')` is
`[""]` and separators at the ends produce empty pieces. -/
def pySplitComma (s : String) : List String :=
  pySplitCommaAux s.data []

/-- `TAG_LIST`: the predefined list of candidate tags
(module-level constant of the script). -/
def TAG_LIST : List String :=
  ["ai/ml", "amazon", "apple", "auto", "books", "business", "design", "dev",
   "dogs", "edu", "facebook", "funny", "future", "google", "harvard",
   "history", "hockey", "life", "longreads", "math", "media", "microsoft",
   "misc", "music", "news", "parenting", "policy", "reviews", "science",
   "seattle", "security", "sfbay", "sports", "tech", "tv", "video games",
   "videos", "work"]

/-- An HTTP response as `requests` hands it to the script: status code, the
`X-Error` header (when present), the raw body text, and the result of
parsing the body as JSON (`none` when `response.json()` would raise). -/
structure HttpResponse where
  status : Nat
  xError : Option String
  text : String
  json : Option JVal

/-- Truthiness of `headers.get("X-Error")`: present and non-empty. -/
def headerTruthy : Option String → Bool
  | none => false
  | some s => s != ""

/-- `response.raise_for_status()` raises exactly for 4xx/5xx codes. -/
def raisesForStatus (status : Nat) : Bool :=
  400 ≤ status && status < 600

/-- The script's `post` wrapper applied to the response the server produced:
if the `X-Error` header is (truthily) present, log it and call
`raise_for_status()` — which raises only on a 4xx/5xx code, and otherwise
the function falls off the end returning Python `None` (`ok none`);
otherwise, if the stripped body is non-empty, parse and return the JSON
body; otherwise return the empty dict. -/
def post (r : HttpResponse) : PyResult (Option JVal) :=
  if headerTruthy r.xError then
    if raisesForStatus r.status then .exn "HTTPError" else .ok none
  else if pyStrip r.text != "" then
    match r.json with
    | some v => .ok (some v)
    | none => .exn "JSONDecodeError"
  else .ok (some (.obj []))

/-! ### OAuth flow (`request_code`, `request_authorization`,
`request_access_token`, `authenticate_pocket`) -/

/-- Observable effects of `authenticate_pocket`, in program order. -/
inductive AuthEffect where
  | postRequest
  | browserOpen
  | inputWait
  | postAuthorize
  deriving DecidableEq, Repr

/-- The environment of one authentication run: the HTTP responses the Pocket
server returns for the `/v3/oauth/request` and `/v3/oauth/authorize` calls. -/
structure AuthEnv where
  codeResp : HttpResponse
  tokenResp : HttpResponse

/-- `request_code`: POST to `/v3/oauth/request` through `post`, then
subscript the result with `"code"` (Python `None["code"]` is a
`TypeError`, a missing key a `KeyError`). -/
def request_code (env : AuthEnv) : PyResult JVal :=
  match post env.codeResp with
  | .exn m => .exn m
  | .ok none => .exn "TypeError"
  | .ok (some j) => pySubscript j "code"

/-- `request_access_token`: POST to `/v3/oauth/authorize` through `post`,
then subscript the result with `"access_token"`. -/
def request_access_token (env : AuthEnv) : PyResult JVal :=
  match post env.tokenResp with
  | .exn m => .exn m
  | .ok none => .exn "TypeError"
  | .ok (some j) => pySubscript j "access_token"

/-- `authenticate_pocket`: obtain a code, open the browser on the
authorization URL, block on keyboard input, then exchange the code for an
access token.  Returns the result together with the trace of effects that
occurred; an exception from `request_code` propagates before the browser is
opened. -/
def authenticate_pocket (env : AuthEnv) : PyResult JVal × List AuthEffect :=
  match request_code env with
  | .exn m => (.exn m, [.postRequest])
  | .ok _ =>
      match request_access_token env with
      | .exn m =>
          (.exn m, [.postRequest, .browserOpen, .inputWait, .postAuthorize])
      | .ok tok =>
          (.ok tok, [.postRequest, .browserOpen, .inputWait, .postAuthorize])

/-! ### Tag classifier (`get_tag_suggestions`) -/

/-- Outcome of the Groq chat-completion call: either some exception during
the request (network error, malformed response — anything the `try` block
catches), or the reply text `response.choices[0].message.content`. -/
inductive LLMResult where
  | exn (m : String)
  | reply (content : String)

/-- The title put into the classifier prompt:
`article.get('resolved_title') or article.get('given_title') or 'No title'`. -/
def titleOf (article : List (String × JVal)) : JVal :=
  pyOr ((article.lookup "resolved_title").getD .null)
    (pyOr ((article.lookup "given_title").getD .null) (.str "No title"))

/-- The URL put into the classifier prompt:
`article.get('resolved_url') or article.get('given_url') or 'No URL'`. -/
def urlOf (article : List (String × JVal)) : JVal :=
  pyOr ((article.lookup "resolved_url").getD .null)
    (pyOr ((article.lookup "given_url").getD .null) (.str "No URL"))

/-- `get_tag_suggestions`: build the prompt, call the LLM, strip the reply,
split it on commas, strip each piece, and keep only the pieces occurring in
`TAG_LIST`; any exception inside the `try` block yields `[]`. -/
def get_tag_suggestions (env : LLMResult) (article : List (String × JVal)) :
    List String :=
  match env with
  | .exn _ => []
  | .reply content =>
      let suggested := (pySplitComma (pyStrip content)).map pyStrip
      suggested.filter (fun tag => TAG_LIST.contains tag)

/-! ### Article fetcher (`get_unread_articles`) -/

/-- The loop body of `get_unread_articles` over `data["list"].items()`:
append `(article_id, article)` when `not article.get("tags")`; calling
`.get` on a non-dict article raises an `AttributeError`. -/
def collectUnread :
    List (String × JVal) → PyResult (List (String × JVal))
  | [] => .ok []
  | (articleId, article) :: rest =>
      if article.isObj then
        match collectUnread rest with
        | .exn m => .exn m
        | .ok tl =>
            if (pyGetD article "tags").truthy then .ok tl
            else .ok ((articleId, article) :: tl)
      else .exn "AttributeError"

/-- `get_unread_articles` applied to the parsed JSON body of the `/v3/get`
response (a dict): when `"list"` is absent, no article is collected; when
present, iterate its items in order keeping the articles whose `tags`
entry is falsy. (`.items()` on a non-dict raises.) -/
def get_unread_articles (data : List (String × JVal)) :
    PyResult (List (String × JVal)) :=
  match data.lookup "list" with
  | none => .ok []
  | some (.obj entries) => collectUnread entries
  | some _ => .exn "AttributeError"

/-! ### Tag writer (`add_tags_to_article`) -/

/-- Outcome of the `requests.post(url, json=payload)` call inside
`add_tags_to_article`: an exception from the request itself, or a response
with a status code and an optional parsed JSON body (`none` when
`response.json()` would raise). -/
inductive NetResult where
  | netExn (m : String)
  | response (status : Nat) (body : Option JVal)

/-- Observable network effect of `add_tags_to_article`: one POST to
`/v3/send` carrying the comma-joined tag string. -/
inductive SendEffect where
  | httpPost (joinedTags : String)
  deriving DecidableEq, Repr

/-- Python `x == 1` on a JSON value: numbers compare numerically, and in
Python `True == 1` holds; every other value is not equal to `1`. -/
def statusEqOne : JVal → Bool
  | .num n => n == 1
  | .bool b => b
  | _ => false

/-- `add_tags_to_article`: an empty tag list returns `False` immediately
with no request; otherwise POST the `tags_add` action, and inside the
`try` block return `data.get("status", 0) == 1` — any exception
(`raise_for_status` on 4xx/5xx, JSON decoding, `.get` on a non-dict) is
caught and yields `False`.  The second component is the trace of network
effects.  (Python compares `True == 1`, so a boolean `true` status also
counts as `1`.) -/
def add_tags_to_article (env : NetResult) (token articleId : String)
    (tags : List String) : Bool × List SendEffect :=
  if tags.isEmpty then (false, [])
  else
    let eff := [SendEffect.httpPost (String.intercalate "," tags)]
    match env with
    | .netExn _ => (false, eff)
    | .response st body =>
        if raisesForStatus st then (false, eff)
        else
          match body with
          | none => (false, eff)
          | some (.obj kvs) =>
              (statusEqOne ((kvs.lookup "status").getD (.num 0)), eff)
          | some _ => (false, eff)

/-! ### Specification-side predicate -/

/-- Spec-side selection predicate for the article fetcher, following the
spec's words: the article's `tags` entry is absent, or it is an empty tag
collection. -/
def tagCollectionEmpty (article : JVal) : Bool :=
  match article with
  | .obj kvs =>
      match kvs.lookup "tags" with
      | none => true
      | some (.obj tkvs) => tkvs.isEmpty
      | some _ => false
  | _ => false

/-! ### Helper lemmas -/

theorem collectUnread_eq_filter (entries : List (String × JVal))
    (h : ∀ p ∈ entries, p.2.isObj = true) :
    collectUnread entries =
      .ok (entries.filter (fun p => !(pyGetD p.2 "tags").truthy)) := by
  induction entries with
  | nil => rfl
  | cons hd tl ih =>
      obtain ⟨articleId, article⟩ := hd
      have hobj : article.isObj = true := h _ (List.mem_cons_self _ _)
      have htl : ∀ p ∈ tl, p.2.isObj = true :=
        fun p hp => h p (List.mem_cons_of_mem _ hp)
      simp only [collectUnread, hobj, if_true, ih htl, List.filter_cons]
      cases hc : (pyGetD article "tags").truthy <;> simp [hc]

theorem mem_collectUnread_not_truthy (entries res : List (String × JVal))
    (h : collectUnread entries = .ok res) :
    ∀ p ∈ res, (pyGetD p.2 "tags").truthy = false := by
  induction entries generalizing res with
  | nil =>
      simp only [collectUnread] at h
      cases h
      intro p hp
      cases hp
  | cons hd tl ih =>
      obtain ⟨articleId, article⟩ := hd
      simp only [collectUnread] at h
      by_cases hobj : article.isObj = true
      · rw [if_pos hobj] at h
        cases hrec : collectUnread tl with
        | exn m => rw [hrec] at h; cases h
        | ok tlres =>
            rw [hrec] at h
            cases hc : (pyGetD article "tags").truthy with
            | true =>
                rw [hc] at h
                injection h with h2
                subst h2
                exact ih tlres hrec
            | false =>
                rw [hc] at h
                injection h with h2
                subst h2
                intro p hp
                cases hp with
                | head => exact hc
                | tail _ hmem => exact ih tlres hrec p hmem
      · rw [if_neg hobj] at h
        cases h

/-! ### Claim theorems -/

/-- C1: for every article and every LLM reply, `get_tag_suggestions`
returns only elements of the fixed tag vocabulary: the reply is split on
commas, each piece trimmed, pieces outside the vocabulary are dropped
while reply order is preserved (the result is a sublist of the trimmed
pieces); in particular the reply `"dev, made-up-tag, tech"` yields exactly
`["dev", "tech"]`. -/
theorem tag_suggestions_subset_vocab :
    (∀ (env : LLMResult) (article : List (String × JVal)) (t : String),
        t ∈ get_tag_suggestions env article → t ∈ TAG_LIST)
  ∧ (∀ (content : String) (article : List (String × JVal)),
        List.Sublist (get_tag_suggestions (.reply content) article)
          ((pySplitComma (pyStrip content)).map pyStrip))
  ∧ get_tag_suggestions (.reply "dev, made-up-tag, tech") []
      = ["dev", "tech"] := by
  refine ⟨?_, ?_, ?_⟩
  · intro env article t ht
    cases env with
    | exn m => cases ht
    | reply content =>
        simp only [get_tag_suggestions, List.mem_filter] at ht
        simpa using ht.2
  · intro content article
    exact List.filter_sublist _
  · rfl

/-- Witness for C1 at the concrete reply `"dev, made-up-tag, tech"`. -/
theorem tag_suggestions_subset_vocab_witness : "dev" ∈ TAG_LIST :=
  tag_suggestions_subset_vocab.1 (.reply "dev, made-up-tag, tech") [] "dev"
    (by decide)

/-- C2: `get_unread_articles` keeps exactly the `(identifier, record)`
pairs whose `tags` entry is absent or an empty collection (for responses
whose articles are records with collection-valued tags), excluding every
article whose tag collection is non-empty; the example response with
articles `"1"` (empty tags) and `"2"` (non-empty tags) yields exactly the
pair for `"1"`. -/
theorem get_unread_articles_untagged :
    (∀ (data entries : List (String × JVal)),
        data.lookup "list" = some (.obj entries) →
        (∀ p ∈ entries, ∃ kvs, p.2 = JVal.obj kvs ∧
            (kvs.lookup "tags" = none ∨
             ∃ tkvs, kvs.lookup "tags" = some (.obj tkvs))) →
        get_unread_articles data
          = .ok (entries.filter (fun p => tagCollectionEmpty p.2)))
  ∧ get_unread_articles
      [("list", .obj
        [("1", .obj [("resolved_title", .str "X"), ("tags", .obj [])]),
         ("2", .obj [("resolved_title", .str "Y"),
                     ("tags", .obj [("a", .num 1)])])])]
      = .ok [("1", .obj [("resolved_title", .str "X"), ("tags", .obj [])])] := by
  constructor
  · intro data entries hlist hwf
    have hobj : ∀ p ∈ entries, p.2.isObj = true := by
      intro p hp
      obtain ⟨kvs, hkvs, _⟩ := hwf p hp
      rw [hkvs]
      rfl
    have hfilter :
        entries.filter (fun p => !(pyGetD p.2 "tags").truthy)
          = entries.filter (fun p => tagCollectionEmpty p.2) := by
      apply List.filter_congr
      intro p hp
      obtain ⟨kvs, hkvs, htags⟩ := hwf p hp
      rw [hkvs]
      rcases htags with hnone | ⟨tkvs, hsome⟩
      · simp [pyGetD, tagCollectionEmpty, hnone, JVal.truthy]
      · cases tkvs with
        | nil => simp [pyGetD, tagCollectionEmpty, hsome, JVal.truthy]
        | cons x xs => simp [pyGetD, tagCollectionEmpty, hsome, JVal.truthy]
    calc get_unread_articles data = collectUnread entries := by
          rw [get_unread_articles, hlist]
      _ = .ok (entries.filter (fun p => tagCollectionEmpty p.2)) := by
          rw [collectUnread_eq_filter entries hobj, hfilter]
  · rfl

/-- Witness for C2 at a concrete one-article response without a `tags`
key. -/
theorem get_unread_articles_untagged_witness :
    get_unread_articles [("list", .obj [("7", .obj [])])]
      = .ok [("7", .obj [])] :=
  get_unread_articles_untagged.1 [("list", .obj [("7", .obj [])])]
    [("7", .obj [])] rfl
    (by
      intro p hp
      rw [List.mem_singleton] at hp
      subst hp
      exact ⟨[], rfl, Or.inl rfl⟩)

/-- C10: a fetch response without a `"list"` key makes
`get_unread_articles` return the empty list rather than fail, and with a
`"list"` mapping of record-valued entries it returns the selected pairs in
the order the entries appear. -/
theorem get_unread_articles_order :
    (∀ data : List (String × JVal), data.lookup "list" = none →
        get_unread_articles data = .ok [])
  ∧ (∀ (data entries : List (String × JVal)),
        data.lookup "list" = some (.obj entries) →
        (∀ p ∈ entries, p.2.isObj = true) →
        get_unread_articles data
          = .ok (entries.filter (fun p => !(pyGetD p.2 "tags").truthy))) := by
  constructor
  · intro data h
    rw [get_unread_articles, h]
  · intro data entries hlist hobj
    calc get_unread_articles data = collectUnread entries := by
          rw [get_unread_articles, hlist]
      _ = .ok (entries.filter (fun p => !(pyGetD p.2 "tags").truthy)) :=
          collectUnread_eq_filter entries hobj

/-- Witness for C10 at a concrete response carrying no `"list"` key. -/
theorem get_unread_articles_order_witness :
    get_unread_articles [("since", JVal.num 123), ("status", JVal.num 2)]
      = .ok [] :=
  get_unread_articles_order.1 [("since", JVal.num 123), ("status", JVal.num 2)]
    rfl

/-- C3: for every non-empty tag list, `add_tags_to_article` succeeds
exactly when the parsed JSON response has a `status` field equal to `1`
(missing field defaults to `0`); a request exception, a 4xx/5xx status, an
unparsable body, or a non-dict body are all caught and yield `false`
instead of propagating. -/
theorem add_tags_success_iff (token articleId : String)
    (tags : List String) (h : tags ≠ []) :
    (∀ (st : Nat) (kvs : List (String × JVal)), raisesForStatus st = false →
        (add_tags_to_article (.response st (some (.obj kvs)))
            token articleId tags).1
          = statusEqOne ((kvs.lookup "status").getD (.num 0)))
  ∧ (∀ m : String,
        (add_tags_to_article (.netExn m) token articleId tags).1 = false)
  ∧ (∀ (st : Nat) (body : Option JVal), raisesForStatus st = true →
        (add_tags_to_article (.response st body) token articleId tags).1
          = false)
  ∧ (∀ st : Nat, raisesForStatus st = false →
        (add_tags_to_article (.response st none) token articleId tags).1
          = false)
  ∧ (∀ (st : Nat) (v : JVal), raisesForStatus st = false → v.isObj = false →
        (add_tags_to_article (.response st (some v)) token articleId tags).1
          = false) := by
  have hne : tags.isEmpty = false := by
    cases tags with
    | nil => exact absurd rfl h
    | cons a l => rfl
  refine ⟨?_, ?_, ?_, ?_, ?_⟩
  · intro st kvs hst
    simp [add_tags_to_article, hne, hst]
  · intro m
    simp [add_tags_to_article, hne]
  · intro st body hst
    simp [add_tags_to_article, hne, hst]
  · intro st hst
    simp [add_tags_to_article, hne, hst]
  · intro st v hst hv
    cases v <;> simp_all [add_tags_to_article, hne, JVal.isObj]

/-- Witness for C3: a 200 response `{"status": 1}` for the tag list
`["dev"]` yields `true`. -/
theorem add_tags_success_iff_witness :
    (add_tags_to_article
        (.response 200 (some (.obj [("status", JVal.num 1)])))
        "token" "42" ["dev"]).1 = true :=
  (add_tags_success_iff "token" "42" ["dev"] (by decide)).1
    200 [("status", JVal.num 1)] rfl

/-- C4: for every environment, token and article identifier,
`add_tags_to_article` with an empty tag list returns `false` and performs
no network call (its effect trace is empty). -/
theorem add_tags_empty_no_call (env : NetResult) (token articleId : String) :
    add_tags_to_article env token articleId [] = (false, []) :=
  rfl

/-- C5 counterexample: a response carrying the `X-Error` header with a
success status code (200) makes `post` return Python `None` — it does not
fail, contradicting the claim that an error header always propagates the
underlying HTTP error. -/
theorem post_error_header_success_status :
    post ⟨200, some "forbidden", "{}", some (.obj [])⟩ = .ok none
  ∧ ∀ m : String,
      post ⟨200, some "forbidden", "{}", some (.obj [])⟩ ≠ .exn m :=
  ⟨rfl, fun _ h => nomatch h⟩

/-- C5 (amended): if the error header is present, `post` logs it and
raises the underlying HTTP error exactly when the status code is an HTTP
error (4xx/5xx), and returns no value (Python `None`) when the status is a
success; without the header, an empty (whitespace-only) body yields the
empty mapping and a non-empty body yields its parsed JSON. -/
theorem post_contract (r : HttpResponse) :
    (headerTruthy r.xError = true → raisesForStatus r.status = true →
        post r = .exn "HTTPError")
  ∧ (headerTruthy r.xError = true → raisesForStatus r.status = false →
        post r = .ok none)
  ∧ (headerTruthy r.xError = false → pyStrip r.text = "" →
        post r = .ok (some (.obj [])))
  ∧ (∀ v : JVal, headerTruthy r.xError = false → pyStrip r.text ≠ "" →
        r.json = some v → post r = .ok (some v)) := by
  refine ⟨?_, ?_, ?_, ?_⟩
  · intro he hst
    simp [post, he, hst]
  · intro he hst
    simp [post, he, hst]
  · intro he htext
    simp [post, he, htext]
  · intro v he htext hjson
    have hne : (pyStrip r.text != "") = true := by
      simpa using htext
    simp [post, he, hne, hjson]

/-- Witness for C5 (amended): a 403 response with the `X-Error` header
raises the HTTP error. -/
theorem post_contract_witness :
    post ⟨403, some "158", "403 Forbidden", none⟩ = .exn "HTTPError" :=
  (post_contract ⟨403, some "158", "403 Forbidden", none⟩).1 rfl rfl

/-- C6: if the OAuth code-request step fails — `post` raised (e.g. a
non-2xx response with the error header) or the `"code"` field is missing —
then `authenticate_pocket` performs only the code-request POST: the
browser is never opened and the token-exchange call is never attempted. -/
theorem authenticate_no_browser_on_failure (env : AuthEnv) (m : String)
    (h : request_code env = .exn m) :
    (authenticate_pocket env).2 = [.postRequest]
  ∧ AuthEffect.browserOpen ∉ (authenticate_pocket env).2
  ∧ AuthEffect.postAuthorize ∉ (authenticate_pocket env).2 := by
  have htrace : (authenticate_pocket env).2 = [.postRequest] := by
    rw [authenticate_pocket, h]
  refine ⟨htrace, ?_, ?_⟩ <;> rw [htrace] <;> decide

/-- Witness for C6: a 403 code-request response (with the Pocket error
header) aborts authentication before any browser or token-exchange
effect. -/
theorem authenticate_no_browser_on_failure_witness :
    AuthEffect.browserOpen ∉
      (authenticate_pocket
        ⟨⟨403, some "158", "403 Forbidden", none⟩,
         ⟨200, none, "", none⟩⟩).2 :=
  (authenticate_no_browser_on_failure
    ⟨⟨403, some "158", "403 Forbidden", none⟩, ⟨200, none, "", none⟩⟩
    "HTTPError" rfl).2.1

/-- C7 counterexample: an article whose `resolved_title` is present but
empty and whose `given_title` is `"Bar"` gets the prompt title `"Bar"`,
not its (present) resolved title — Python `or` treats the empty string as
absent, so "resolved title present implies it is used" fails. -/
theorem titleOf_empty_resolved_counterexample :
    titleOf [("resolved_title", JVal.str ""), ("given_title", JVal.str "Bar")]
        = .str "Bar"
  ∧ ([("resolved_title", JVal.str ""),
      ("given_title", JVal.str "Bar")].lookup "resolved_title"
        = some (JVal.str ""))
  ∧ JVal.str "Bar" ≠ JVal.str "" := by
  refine ⟨rfl, rfl, ?_⟩
  intro h
  injection h with h2
  exact absurd h2 (by decide)

/-- C7 (amended): the prompt title is the resolved title when a non-empty
(truthy) one is present; when the resolved title is absent or empty, it is
the given title when that is non-empty; when both are absent or empty, it
is `"No title"`. -/
theorem titleOf_truthy_precedence (article : List (String × JVal)) :
    (((article.lookup "resolved_title").getD .null).truthy = true →
        titleOf article = (article.lookup "resolved_title").getD .null)
  ∧ (((article.lookup "resolved_title").getD .null).truthy = false →
      ((article.lookup "given_title").getD .null).truthy = true →
        titleOf article = (article.lookup "given_title").getD .null)
  ∧ (((article.lookup "resolved_title").getD .null).truthy = false →
      ((article.lookup "given_title").getD .null).truthy = false →
        titleOf article = .str "No title") := by
  refine ⟨?_, ?_, ?_⟩
  · intro h1
    simp [titleOf, pyOr, h1]
  · intro h1 h2
    simp [titleOf, pyOr, h1, h2]
  · intro h1 h2
    simp [titleOf, pyOr, h1, h2]

/-- Witness for C7 (amended): resolved title `"Foo"` beats given title
`"Bar"`. -/
theorem titleOf_truthy_precedence_witness :
    titleOf [("resolved_title", JVal.str "Foo"),
             ("given_title", JVal.str "Bar")] = JVal.str "Foo" :=
  (titleOf_truthy_precedence
    [("resolved_title", JVal.str "Foo"),
     ("given_title", JVal.str "Bar")]).1 rfl

/-- C8 counterexample: the reply
`"dev, tech, ai/ml, apple, google, music"` — six valid vocabulary tags —
produces a suggestion list of length 6: the 0–5 bound is only requested in
the prompt, never enforced by the parsing code. -/
theorem tag_suggestions_six_counterexample :
    ¬ ((get_tag_suggestions
          (.reply "dev, tech, ai/ml, apple, google, music") []).length
        ≤ 5) := by
  decide

/-- C8 (amended): the suggestion list has length at most the number of
comma-separated pieces of the reply (and is empty on any request failure);
no fixed bound of 5 is enforced. -/
theorem tag_suggestions_length_le :
    (∀ (content : String) (article : List (String × JVal)),
        (get_tag_suggestions (.reply content) article).length
          ≤ (pySplitComma (pyStrip content)).length)
  ∧ (∀ (m : String) (article : List (String × JVal)),
        get_tag_suggestions (.exn m) article = []) := by
  constructor
  · intro content article
    simp only [get_tag_suggestions]
    calc (((pySplitComma (pyStrip content)).map pyStrip).filter
            (fun tag => TAG_LIST.contains tag)).length
        ≤ ((pySplitComma (pyStrip content)).map pyStrip).length :=
          List.length_filter_le _ _
      _ = (pySplitComma (pyStrip content)).length := List.length_map _ _
  · intro m article
    rfl

/-- C9 counterexample: the vocabulary does not have 37 entries. -/
theorem TAG_LIST_length_ne_37 : TAG_LIST.length ≠ 37 := by
  decide

/-- C9 (amended): `TAG_LIST` is a fixed duplicate-free list of exactly 38
string literals (a module-level constant; nothing in the program rebinds
or mutates it). -/
theorem TAG_LIST_fixed : TAG_LIST.length = 38 ∧ TAG_LIST.Nodup :=
  ⟨rfl, by decide⟩

end PocketTagger
